import Mathlib

/-!
Shallow embedding of `src/utils/AudioManager.js` from the visual-sketches
repository: an audio-capture manager that owns a microphone session,
computes an exponentially smoothed volume from per-bin frequency
snapshots, and keeps rolling peak/average metrics over one-second
wall-clock windows.

Modelling conventions:
* JS numbers are embedded as `ℚ` (volumes, metric accumulators) and `ℤ`
  (millisecond timestamps from `Date.now()`).
* Platform objects (`audioContext`, `analyser`, the media-stream source
  node `microphone`) are modelled by their truthiness: a `Bool` that is
  `true` exactly when the JS field holds an object rather than `null`.
* The held media stream is `Option ℕ`: the id of the stream, if any.
  A `World` records which device streams still have live (un-stopped)
  tracks; stopping a stream's tracks erases its id from `liveStreams`.
* Fallible platform calls (`getUserMedia`, `createMediaStreamSource`,
  `connect`, `track.stop`, `disconnect`, the `AudioContext` constructor)
  are driven by explicit environment records whose `Bool` fields say
  whether each call throws; a thrown JS error is an `Except.error`.
* `getAudioData` takes the frequency snapshot the analyser would report
  and the current time as arguments; it is a total function, reflecting
  that the JS method contains no fallible call.
-/

/-- The `this.metrics` record of `AudioManager`. -/
structure Metrics where
  lastUpdate : ℤ
  updateInterval : ℤ
  peakVolume : ℚ
  averageVolume : ℚ
  sampleCount : ℕ
  volumeSum : ℚ
deriving Repr, DecidableEq

/-- The fields of an `AudioManager` instance. -/
structure AudioManager where
  initialized : Bool
  isActive : Bool
  audioContext : Bool
  analyser : Bool
  microphone : Bool
  volumeSmoothing : ℚ
  prevVolume : ℚ
  stream : Option ℕ
  metrics : Metrics
deriving Repr, DecidableEq

/-- The set of device streams whose tracks are still live, plus a counter
used to hand out fresh stream ids on `getUserMedia`. -/
structure World where
  nextId : ℕ
  liveStreams : List ℕ
deriving Repr, DecidableEq

/-- Errors thrown by the JS code, by origin. -/
inductive JsError where
  | initialization
  | deviceAccess
  | nodeError
  | teardown
deriving Repr, DecidableEq

/-- The metrics object built by the `AudioManager` constructor. -/
def initialMetrics : Metrics :=
  { lastUpdate := 0
    updateInterval := 1000
    peakVolume := 0
    averageVolume := 0
    sampleCount := 0
    volumeSum := 0 }

/-- The `AudioManager` constructor. -/
def mkAudioManager : AudioManager :=
  { initialized := false
    isActive := false
    audioContext := false
    analyser := false
    microphone := false
    volumeSmoothing := 8/10
    prevVolume := 0
    stream := none
    metrics := initialMetrics }

/-- Fault injection for `initialize`: whether `new AudioContext()` and
`createAnalyser()` throw. -/
structure InitEnv where
  contextThrows : Bool
  analyserThrows : Bool
deriving Repr, DecidableEq

/-- `initialize()`: idempotent; allocates the audio context, then the
analyser; on a throw the fields assigned so far stay assigned and
`initialized` stays `false`. -/
def initAudio (m : AudioManager) (env : InitEnv) :
    AudioManager × Except JsError Unit :=
  if m.initialized then (m, Except.ok ())
  else if env.contextThrows then (m, Except.error JsError.initialization)
  else
    let m1 := { m with audioContext := true }
    if env.analyserThrows then (m1, Except.error JsError.initialization)
    else ({ m1 with analyser := true, initialized := true }, Except.ok ())

/-- Fault injection for `stopMicrophone`: whether stopping the stream's
tracks throws, and whether `microphone.disconnect()` throws. -/
structure StopEnv where
  trackStopThrows : Bool
  disconnectThrows : Bool
deriving Repr, DecidableEq

/-- Second half of `stopMicrophone`'s `try` block: disconnect and null the
microphone node, then clear `isActive`. -/
def stopDisconnect (m : AudioManager) (w : World) (env : StopEnv) :
    AudioManager × World × Except JsError Unit :=
  if m.microphone then
    if env.disconnectThrows then (m, w, Except.error JsError.teardown)
    else ({ m with microphone := false, isActive := false }, w, Except.ok ())
  else ({ m with isActive := false }, w, Except.ok ())

/-- `stopMicrophone()`: early-returns when not active; otherwise stops the
stream's tracks and nulls `stream`, disconnects and nulls `microphone`,
then sets `isActive := false`.  The `catch` logs and rethrows, so a throw
leaves every field as it was at the moment of the throw. -/
def stopMicrophone (m : AudioManager) (w : World) (env : StopEnv) :
    AudioManager × World × Except JsError Unit :=
  if m.isActive = false then (m, w, Except.ok ())
  else
    match m.stream with
    | some sid =>
        if env.trackStopThrows then (m, w, Except.error JsError.teardown)
        else
          stopDisconnect { m with stream := none }
            { w with liveStreams := w.liveStreams.erase sid } env
    | none => stopDisconnect m w env

/-- Fault injection for `startMicrophone`: the environment of the implied
`initialize`, of the leading `stopMicrophone`, whether `getUserMedia`
grants a stream, whether `createMediaStreamSource` or `connect` throws,
and the environment of the cleanup `stopMicrophone` in the `catch`. -/
structure StartEnv where
  initEnv : InitEnv
  stopEnv : StopEnv
  grant : Bool
  sourceThrows : Bool
  connectThrows : Bool
  catchStopEnv : StopEnv
deriving Repr, DecidableEq

/-- The fresh metrics window `startMicrophone` installs on success. -/
def freshMetrics (now : ℤ) : Metrics :=
  { lastUpdate := now
    updateInterval := 1000
    peakVolume := 0
    averageVolume := 0
    sampleCount := 0
    volumeSum := 0 }

/-- The `catch` block of `startMicrophone`: awaits `stopMicrophone` for
cleanup (whose own throw, if any, replaces the original error), then
rethrows. -/
def startCatch (m : AudioManager) (w : World) (env : StopEnv) (e : JsError) :
    AudioManager × World × Except JsError Unit :=
  match stopMicrophone m w env with
  | (m1, w1, Except.error e2) => (m1, w1, Except.error e2)
  | (m1, w1, Except.ok _) => (m1, w1, Except.error e)

/-- The `try` block of `startMicrophone`: stop any existing microphone,
acquire a fresh device stream, build and connect the media-stream source
node, mark active, and reset the metrics window; any throw is routed
through the `catch` block. -/
def startTry (m : AudioManager) (w : World) (env : StartEnv) (now : ℤ) :
    AudioManager × World × Except JsError Unit :=
  match stopMicrophone m w env.stopEnv with
  | (m1, w1, Except.error e) => startCatch m1 w1 env.catchStopEnv e
  | (m1, w1, Except.ok _) =>
    if env.grant = false then
      startCatch m1 w1 env.catchStopEnv JsError.deviceAccess
    else
      let sid := w1.nextId
      let w2 : World := { nextId := sid + 1, liveStreams := sid :: w1.liveStreams }
      let m2 := { m1 with stream := some sid }
      if env.sourceThrows then startCatch m2 w2 env.catchStopEnv JsError.nodeError
      else
        let m3 := { m2 with microphone := true }
        if env.connectThrows then startCatch m3 w2 env.catchStopEnv JsError.nodeError
        else
          ({ m3 with isActive := true, metrics := freshMetrics now }, w2, Except.ok ())

/-- `startMicrophone()`: ensure `initialize` has run (its error, thrown
before the `try`, propagates without cleanup), then run the `try` block. -/
def startMicrophone (m : AudioManager) (w : World) (env : StartEnv) (now : ℤ) :
    AudioManager × World × Except JsError Unit :=
  match initAudio m env.initEnv with
  | (m0, Except.error e) => (m0, w, Except.error e)
  | (m0, Except.ok _) => startTry m0 w env now

/-- `updateMetrics(volume)`: fold the sample into the running peak, sum and
count; when the wall-clock interval since `lastUpdate` has reached
`updateInterval`, derive the average, then reseed peak/sum/count from the
current sample and advance `lastUpdate` to `now`. -/
def updateMetrics (mt : Metrics) (volume : ℚ) (now : ℤ) : Metrics :=
  let mt1 : Metrics :=
    { mt with
      peakVolume := max mt.peakVolume volume
      volumeSum := mt.volumeSum + volume
      sampleCount := mt.sampleCount + 1 }
  if now - mt1.lastUpdate ≥ mt1.updateInterval then
    { mt1 with
      averageVolume := mt1.volumeSum / (mt1.sampleCount : ℚ)
      lastUpdate := now
      peakVolume := volume
      volumeSum := volume
      sampleCount := 1 }
  else mt1

/-- The object returned by `getAudioData`.  `metrics := none` models the
inert-branch object literal, which has no `metrics` key at all. -/
structure AudioOutput where
  volume : ℚ
  frequencyData : Option (List ℕ)
  metrics : Option Metrics
deriving Repr, DecidableEq

/-- `getAudioData()`: on an inert session (not active, or no analyser)
return zero volume and a null snapshot without touching any state;
otherwise average the bins, normalize by 255, exponentially smooth into
`prevVolume`, update the metrics, and return all three. -/
def getAudioData (m : AudioManager) (bins : List ℕ) (now : ℤ) :
    AudioManager × AudioOutput :=
  if m.isActive = false ∨ m.analyser = false then
    (m, { volume := 0, frequencyData := none, metrics := none })
  else
    let sum : ℚ := (bins.map (fun b : ℕ => (b : ℚ))).sum
    let rawVolume : ℚ := sum / (bins.length : ℚ) / 255
    let newVolume : ℚ :=
      m.prevVolume * m.volumeSmoothing + rawVolume * (1 - m.volumeSmoothing)
    let mt := updateMetrics m.metrics newVolume now
    ({ m with prevVolume := newVolume, metrics := mt },
     { volume := newVolume, frequencyData := some bins, metrics := some mt })

/-- Thread a sequence of animation-frame queries (snapshot, timestamp)
through `getAudioData`, keeping the final manager state. -/
def runAudio (m : AudioManager) (inputs : List (List ℕ × ℤ)) : AudioManager :=
  inputs.foldl (fun st inp => (getAudioData st inp.1 inp.2).1) m

/-- A sample `AudioManager` in the active state, as left by a successful
`initialize` followed by a successful `startMicrophone` of stream 0. -/
def sampleActive : AudioManager :=
  { mkAudioManager with
    initialized := true
    audioContext := true
    analyser := true
    microphone := true
    isActive := true
    stream := some 0 }

/-- C3: on an inert session (`isActive` false or no analyser),
`getAudioData` returns volume 0 and a null frequency snapshot; being a
total function, it cannot raise. -/
theorem getAudioData_inert_zero (m : AudioManager) (bins : List ℕ) (now : ℤ)
    (h : m.isActive = false ∨ m.analyser = false) :
    (getAudioData m bins now).2.volume = 0 ∧
      (getAudioData m bins now).2.frequencyData = none := by
  simp [getAudioData, h]

/-- Witness for C3: `getAudioData` on a freshly constructed manager. -/
theorem getAudioData_inert_zero_witness :
    (getAudioData mkAudioManager [7, 200] 5).2.volume = 0 ∧
      (getAudioData mkAudioManager [7, 200] 5).2.frequencyData = none :=
  getAudioData_inert_zero mkAudioManager [7, 200] 5 (Or.inl rfl)

/-- C10: on an inert session, `getAudioData` returns the two-field object
(`metrics` absent, modelled as `none`) and leaves the manager state
completely unchanged. -/
theorem getAudioData_inert_frame (m : AudioManager) (bins : List ℕ) (now : ℤ)
    (h : m.isActive = false ∨ m.analyser = false) :
    getAudioData m bins now =
      (m, { volume := 0, frequencyData := none, metrics := none }) := by
  simp [getAudioData, h]

/-- Witness for C10: the inert branch at a concrete manager and snapshot. -/
theorem getAudioData_inert_frame_witness :
    getAudioData mkAudioManager [1, 2, 3] 42 =
      (mkAudioManager, { volume := 0, frequencyData := none, metrics := none }) :=
  getAudioData_inert_frame mkAudioManager [1, 2, 3] 42 (Or.inl rfl)

/-- C7: `stopMicrophone` on an inert session is a strict no-op: it returns
without error and every field of the manager (and the outside world) is
unchanged. -/
theorem stopMicrophone_inert_noop (m : AudioManager) (w : World) (env : StopEnv)
    (h : m.isActive = false) :
    stopMicrophone m w env = (m, w, Except.ok ()) := by
  simp [stopMicrophone, h]

/-- Witness for C7: stopping a freshly constructed (inert) manager. -/
theorem stopMicrophone_inert_noop_witness :
    stopMicrophone mkAudioManager { nextId := 3, liveStreams := [2] }
        { trackStopThrows := true, disconnectThrows := true } =
      (mkAudioManager, { nextId := 3, liveStreams := [2] }, Except.ok ()) :=
  stopMicrophone_inert_noop mkAudioManager { nextId := 3, liveStreams := [2] }
    { trackStopThrows := true, disconnectThrows := true } rfl

/-- C1: on an active session with the constructor's smoothing factor 0.8,
`getAudioData` returns `prevVolume * 0.8 + rawVolume * 0.2` with
`rawVolume` the mean of the bins divided by 255, stores that value back
into `prevVolume` for the next call, and the constructor starts
`prevVolume` at 0. -/
theorem getAudioData_smoothing (m : AudioManager) (bins : List ℕ) (now : ℤ)
    (hact : m.isActive = true) (han : m.analyser = true)
    (hα : m.volumeSmoothing = 8/10) :
    (getAudioData m bins now).2.volume =
        m.prevVolume * (8/10) +
          ((bins.map (fun b : ℕ => (b : ℚ))).sum / (bins.length : ℚ) / 255) * (2/10) ∧
      (getAudioData m bins now).1.prevVolume = (getAudioData m bins now).2.volume ∧
      mkAudioManager.prevVolume = 0 := by
  simp [getAudioData, hact, han, hα, mkAudioManager]
  norm_num

/-- Witness for C1: one active call on a single-bin snapshot of 255. -/
theorem getAudioData_smoothing_witness :
    (getAudioData sampleActive [255] 9).2.volume =
        sampleActive.prevVolume * (8/10) +
          (([255].map (fun b : ℕ => (b : ℚ))).sum / (([255] : List ℕ).length : ℚ) / 255) * (2/10) ∧
      (getAudioData sampleActive [255] 9).1.prevVolume =
        (getAudioData sampleActive [255] 9).2.volume ∧
      mkAudioManager.prevVolume = 0 :=
  getAudioData_smoothing sampleActive [255] 9 rfl rfl rfl

/-- A sample `AudioManager` after a successful `initialize` with the
microphone not yet started. -/
def sampleInitialized : AudioManager :=
  { mkAudioManager with
    initialized := true
    audioContext := true
    analyser := true }

/-- C5: each active `getAudioData` call folds the smoothed volume into the
rolling metrics (`peak := max peak v`, `sum := sum + v`,
`count := count + 1`); exactly when `now - lastUpdate` has reached the
1000 ms interval it also derives `average := sum / count`, reseeds peak
and sum with `v` and count with 1, and advances `lastUpdate` to `now`. -/
theorem getAudioData_metrics_update (m : AudioManager) (bins : List ℕ) (now : ℤ)
    (hact : m.isActive = true) (han : m.analyser = true)
    (hint : m.metrics.updateInterval = 1000) :
    (¬ now - m.metrics.lastUpdate ≥ 1000 →
      (getAudioData m bins now).1.metrics =
        { m.metrics with
          peakVolume := max m.metrics.peakVolume (getAudioData m bins now).2.volume
          volumeSum := m.metrics.volumeSum + (getAudioData m bins now).2.volume
          sampleCount := m.metrics.sampleCount + 1 }) ∧
    (now - m.metrics.lastUpdate ≥ 1000 →
      (getAudioData m bins now).1.metrics =
        { m.metrics with
          averageVolume :=
            (m.metrics.volumeSum + (getAudioData m bins now).2.volume) /
              ((m.metrics.sampleCount : ℚ) + 1)
          lastUpdate := now
          peakVolume := (getAudioData m bins now).2.volume
          volumeSum := (getAudioData m bins now).2.volume
          sampleCount := 1 }) := by
  constructor
  · intro hlt
    simp [getAudioData, hact, han, updateMetrics, hint, hlt]
  · intro hge
    simp [getAudioData, hact, han, updateMetrics, hint, hge]

/-- Witness for C5: an active call inside the current window. -/
theorem getAudioData_metrics_update_witness :
    (¬ (500 : ℤ) - sampleActive.metrics.lastUpdate ≥ 1000 →
      (getAudioData sampleActive [100] 500).1.metrics =
        { sampleActive.metrics with
          peakVolume :=
            max sampleActive.metrics.peakVolume (getAudioData sampleActive [100] 500).2.volume
          volumeSum :=
            sampleActive.metrics.volumeSum + (getAudioData sampleActive [100] 500).2.volume
          sampleCount := sampleActive.metrics.sampleCount + 1 }) ∧
    ((500 : ℤ) - sampleActive.metrics.lastUpdate ≥ 1000 →
      (getAudioData sampleActive [100] 500).1.metrics =
        { sampleActive.metrics with
          averageVolume :=
            (sampleActive.metrics.volumeSum + (getAudioData sampleActive [100] 500).2.volume) /
              ((sampleActive.metrics.sampleCount : ℚ) + 1)
          lastUpdate := 500
          peakVolume := (getAudioData sampleActive [100] 500).2.volume
          volumeSum := (getAudioData sampleActive [100] 500).2.volume
          sampleCount := 1 }) :=
  getAudioData_metrics_update sampleActive [100] 500 rfl rfl rfl

/-- C4 (code bug): when `startMicrophone` fails after the device stream was
acquired (here: `connect` throws), the `catch` block's cleanup call to
`stopMicrophone` early-returns because `isActive` is still `false`, so the
partially acquired stream is retained in `this.stream`, its device tracks
stay live, and the source node stays attached — contradicting the code's
own "Try to clean up any partial initialization" intent. -/
theorem startMicrophone_partial_leak :
    startMicrophone sampleInitialized { nextId := 0, liveStreams := [] }
        { initEnv := { contextThrows := false, analyserThrows := false }
          stopEnv := { trackStopThrows := false, disconnectThrows := false }
          grant := true
          sourceThrows := false
          connectThrows := true
          catchStopEnv := { trackStopThrows := false, disconnectThrows := false } } 5 =
      ({ sampleInitialized with stream := some 0, microphone := true },
        { nextId := 1, liveStreams := [0] },
        Except.error JsError.nodeError) := by
  rfl

/-- C6 counterexample: on an active session whose `disconnect` throws,
`stopMicrophone` rethrows before `this.isActive = false` runs, so the
error is surfaced but the session is NOT marked inert — refuting the
claim that `isActive` becomes false. -/
theorem stopMicrophone_teardown_cex :
    (stopMicrophone sampleActive { nextId := 1, liveStreams := [0] }
        { trackStopThrows := false, disconnectThrows := true }).2.2 =
        Except.error JsError.teardown ∧
      (stopMicrophone sampleActive { nextId := 1, liveStreams := [0] }
        { trackStopThrows := false, disconnectThrows := true }).1.isActive = true := by
  exact ⟨rfl, rfl⟩

/-- C6 amended: whenever `stopMicrophone`'s teardown fails, the error is
surfaced to the caller (a teardown error is returned), but the session
remains active: `isActive` stays `true`, it is not marked inert. -/
theorem stopMicrophone_teardown_amended (m : AudioManager) (w : World)
    (env : StopEnv) (e : JsError)
    (herr : (stopMicrophone m w env).2.2 = Except.error e) :
    (stopMicrophone m w env).2.2 = Except.error JsError.teardown ∧
      (stopMicrophone m w env).1.isActive = true := by
  rcases m with ⟨ini, act, ctx, ana, mic, vs, pv, st, mt⟩
  rcases env with ⟨ts, dt⟩
  cases act <;> cases mic <;> cases st <;> cases ts <;> cases dt <;>
    simp_all [stopMicrophone, stopDisconnect]

/-- Witness for C6 amended: a teardown whose track-stop throws. -/
theorem stopMicrophone_teardown_amended_witness :
    (stopMicrophone sampleActive { nextId := 4, liveStreams := [0, 3] }
        { trackStopThrows := true, disconnectThrows := false }).2.2 =
        Except.error JsError.teardown ∧
      (stopMicrophone sampleActive { nextId := 4, liveStreams := [0, 3] }
        { trackStopThrows := true, disconnectThrows := false }).1.isActive = true :=
  stopMicrophone_teardown_amended sampleActive { nextId := 4, liveStreams := [0, 3] }
    { trackStopThrows := true, disconnectThrows := false } JsError.teardown rfl

/-- The bin sum is nonnegative. -/
theorem binsSum_nonneg (bins : List ℕ) :
    0 ≤ (bins.map (fun b : ℕ => (b : ℚ))).sum := by
  induction bins with
  | nil => simp
  | cons b bs ih =>
    simp only [List.map_cons, List.sum_cons]
    have hb : (0 : ℚ) ≤ (b : ℚ) := by positivity
    linarith

/-- If every bin is at most 255 the bin sum is at most `255 * length`. -/
theorem binsSum_le (bins : List ℕ) (hb : ∀ b ∈ bins, b ≤ 255) :
    (bins.map (fun b : ℕ => (b : ℚ))).sum ≤ 255 * (bins.length : ℚ) := by
  induction bins with
  | nil => simp
  | cons b bs ih =>
    simp only [List.map_cons, List.sum_cons, List.length_cons]
    have hb1 : (b : ℚ) ≤ 255 := by exact_mod_cast hb b (by simp)
    have hbs := ih (fun x hx => hb x (by simp [hx]))
    have hlen : ((bs.length + 1 : ℕ) : ℚ) = (bs.length : ℚ) + 1 := by push_cast; ring
    rw [hlen]
    linarith

/-- The normalized raw volume `sum / length / 255` lies in `[0, 1]` when
every bin is at most 255 (for an empty snapshot it is 0). -/
theorem rawVolume_unit (bins : List ℕ) (hb : ∀ b ∈ bins, b ≤ 255) :
    0 ≤ (bins.map (fun b : ℕ => (b : ℚ))).sum / (bins.length : ℚ) / 255 ∧
      (bins.map (fun b : ℕ => (b : ℚ))).sum / (bins.length : ℚ) / 255 ≤ 1 := by
  constructor
  · have h0 := binsSum_nonneg bins
    positivity
  · rcases Nat.eq_zero_or_pos bins.length with h0 | hpos
    · simp [List.eq_nil_of_length_eq_zero h0]
    · have hlen : (0 : ℚ) < (bins.length : ℚ) := by exact_mod_cast hpos
      have hsum := binsSum_le bins hb
      rw [div_le_one (by norm_num), div_le_iff₀ hlen]
      linarith

/-- One exponential-smoothing step stays in `[0, 1]`. -/
theorem smooth_step_unit (a p r : ℚ) (ha0 : 0 ≤ a) (ha1 : a ≤ 1)
    (hp0 : 0 ≤ p) (hp1 : p ≤ 1) (hr0 : 0 ≤ r) (hr1 : r ≤ 1) :
    0 ≤ p * a + r * (1 - a) ∧ p * a + r * (1 - a) ≤ 1 := by
  constructor
  · have h1 : 0 ≤ p * a := mul_nonneg hp0 ha0
    have h2 : 0 ≤ r * (1 - a) := mul_nonneg hr0 (by linarith)
    linarith
  · nlinarith [mul_nonneg (sub_nonneg.mpr hp1) ha0,
      mul_nonneg (sub_nonneg.mpr hr1) (sub_nonneg.mpr ha1)]

/-- One `getAudioData` call keeps `prevVolume` in `[0, 1]` and does not
change the smoothing factor. -/
theorem getAudioData_state_unit (m : AudioManager) (bins : List ℕ) (now : ℤ)
    (hb : ∀ b ∈ bins, b ≤ 255)
    (ha0 : 0 ≤ m.volumeSmoothing) (ha1 : m.volumeSmoothing ≤ 1)
    (hp0 : 0 ≤ m.prevVolume) (hp1 : m.prevVolume ≤ 1) :
    (0 ≤ (getAudioData m bins now).1.prevVolume ∧
      (getAudioData m bins now).1.prevVolume ≤ 1) ∧
    (getAudioData m bins now).1.volumeSmoothing = m.volumeSmoothing := by
  have hraw := rawVolume_unit bins hb
  have hs := smooth_step_unit m.volumeSmoothing m.prevVolume
    ((bins.map (fun b : ℕ => (b : ℚ))).sum / (bins.length : ℚ) / 255)
    ha0 ha1 hp0 hp1 hraw.1 hraw.2
  unfold getAudioData
  split
  · exact ⟨⟨hp0, hp1⟩, rfl⟩
  · exact ⟨⟨hs.1, hs.2⟩, rfl⟩

/-- The value returned by `getAudioData` is either 0 (inert branch) or the
new `prevVolume` (active branch). -/
theorem getAudioData_volume_cases (m : AudioManager) (bins : List ℕ) (now : ℤ) :
    (getAudioData m bins now).2.volume = 0 ∨
      (getAudioData m bins now).2.volume = (getAudioData m bins now).1.prevVolume := by
  unfold getAudioData
  split
  · exact Or.inl rfl
  · exact Or.inr rfl

/-- Any run of `getAudioData` calls keeps `prevVolume` in `[0, 1]` and
preserves the smoothing factor. -/
theorem runAudio_unit (inputs : List (List ℕ × ℤ)) (m0 : AudioManager)
    (hb : ∀ p ∈ inputs, ∀ b ∈ p.1, b ≤ 255)
    (ha0 : 0 ≤ m0.volumeSmoothing) (ha1 : m0.volumeSmoothing ≤ 1)
    (hp0 : 0 ≤ m0.prevVolume) (hp1 : m0.prevVolume ≤ 1) :
    (0 ≤ (runAudio m0 inputs).prevVolume ∧ (runAudio m0 inputs).prevVolume ≤ 1) ∧
      (runAudio m0 inputs).volumeSmoothing = m0.volumeSmoothing := by
  induction inputs generalizing m0 with
  | nil => exact ⟨⟨hp0, hp1⟩, rfl⟩
  | cons p rest ih =>
    have hstep := getAudioData_state_unit m0 p.1 p.2 (hb p (by simp)) ha0 ha1 hp0 hp1
    have hrec := ih (getAudioData m0 p.1 p.2).1 (fun q hq => hb q (by simp [hq]))
      (by rw [hstep.2]; exact ha0) (by rw [hstep.2]; exact ha1)
      hstep.1.1 hstep.1.2
    have hsm : (runAudio (getAudioData m0 p.1 p.2).1 rest).volumeSmoothing
        = m0.volumeSmoothing := by rw [hrec.2, hstep.2]
    have hrun : runAudio m0 (p :: rest) = runAudio (getAudioData m0 p.1 p.2).1 rest := by
      simp [runAudio]
    exact ⟨by rw [hrun]; exact hrec.1, by rw [hrun]; exact hsm⟩

/-- C2: for every smoothing factor in `[0,1]`, starting `prevVolume` in
`[0,1]` (the constructor starts it at 0), and every sequence of snapshots
whose bins lie in `[0,255]`, both the stored `prevVolume` and the volume
returned by any further `getAudioData` call stay within `[0,1]`. -/
theorem volume_always_unit (inputs : List (List ℕ × ℤ)) (m0 : AudioManager)
    (ha0 : 0 ≤ m0.volumeSmoothing) (ha1 : m0.volumeSmoothing ≤ 1)
    (hp0 : 0 ≤ m0.prevVolume) (hp1 : m0.prevVolume ≤ 1)
    (hb : ∀ p ∈ inputs, ∀ b ∈ p.1, b ≤ 255) :
    (0 ≤ (runAudio m0 inputs).prevVolume ∧ (runAudio m0 inputs).prevVolume ≤ 1) ∧
      ∀ bins, (∀ b ∈ bins, b ≤ 255) → ∀ now : ℤ,
        0 ≤ (getAudioData (runAudio m0 inputs) bins now).2.volume ∧
          (getAudioData (runAudio m0 inputs) bins now).2.volume ≤ 1 := by
  have hrun := runAudio_unit inputs m0 hb ha0 ha1 hp0 hp1
  refine ⟨hrun.1, ?_⟩
  intro bins hbins now
  have hstep := getAudioData_state_unit (runAudio m0 inputs) bins now hbins
    (by rw [hrun.2]; exact ha0) (by rw [hrun.2]; exact ha1) hrun.1.1 hrun.1.2
  rcases getAudioData_volume_cases (runAudio m0 inputs) bins now with hv | hv
  · rw [hv]; norm_num
  · rw [hv]; exact hstep.1

/-- Witness for C2: the constructed manager run over one maximal snapshot. -/
theorem volume_always_unit_witness :
    (0 ≤ (runAudio mkAudioManager [([255], 0)]).prevVolume ∧
        (runAudio mkAudioManager [([255], 0)]).prevVolume ≤ 1) ∧
      ∀ bins, (∀ b ∈ bins, b ≤ 255) → ∀ now : ℤ,
        0 ≤ (getAudioData (runAudio mkAudioManager [([255], 0)]) bins now).2.volume ∧
          (getAudioData (runAudio mkAudioManager [([255], 0)]) bins now).2.volume ≤ 1 :=
  volume_always_unit [([255], 0)] mkAudioManager
    (by norm_num [mkAudioManager]) (by norm_num [mkAudioManager])
    (by norm_num [mkAudioManager]) (by norm_num [mkAudioManager])
    (by intro p hp b hbmem; simp at hp; simp [hp] at hbmem; omega)

/-- A frequency snapshot of 512 bins all equal to 153, whose normalized
mean is `153 / 255 = 0.6`. -/
def c9Bins : List ℕ := List.replicate 512 153

/-- The manager after `n` animation frames of the constant-0.6 snapshot,
starting from a just-started active session (`prevVolume = 0`). -/
def c9Run (n : ℕ) : AudioManager :=
  runAudio sampleActive (List.replicate n (c9Bins, 0))

/-- One more frame is one more `getAudioData` call. -/
theorem c9Run_succ (n : ℕ) :
    c9Run (n + 1) = (getAudioData (c9Run n) c9Bins 0).1 := by
  unfold c9Run runAudio
  rw [List.replicate_succ', List.foldl_append]
  rfl

/-- The normalized raw volume of the constant snapshot is `0.6`. -/
theorem c9Bins_raw :
    (c9Bins.map (fun b : ℕ => (b : ℚ))).sum / ((c9Bins.length : ℚ)) / 255 = 6/10 := by
  unfold c9Bins
  rw [List.map_replicate, List.sum_replicate, List.length_replicate, nsmul_eq_mul]
  norm_num

/-- Closed form of the run: after `n` frames of the constant-0.6 snapshot
the session is still active with smoothing 0.8, and
`prevVolume = 0.6 * (1 - 0.8 ^ n)`. -/
theorem c9Run_state (n : ℕ) :
    (c9Run n).isActive = true ∧ (c9Run n).analyser = true ∧
      (c9Run n).volumeSmoothing = 8/10 ∧
      (c9Run n).prevVolume = (6/10) * (1 - (8/10) ^ n) := by
  induction n with
  | zero =>
    refine ⟨rfl, rfl, rfl, ?_⟩
    show mkAudioManager.prevVolume = (6/10) * (1 - (8/10 : ℚ) ^ 0)
    norm_num [mkAudioManager]
  | succ n ih =>
    obtain ⟨hact, han, ha, hp⟩ := ih
    rw [c9Run_succ]
    refine ⟨by simp [getAudioData, hact, han], by simp [getAudioData, hact, han],
      by simp [getAudioData, hact, han, ha], ?_⟩
    have hvol : (getAudioData (c9Run n) c9Bins 0).1.prevVolume =
        (c9Run n).prevVolume * (c9Run n).volumeSmoothing +
          ((c9Bins.map (fun b : ℕ => (b : ℚ))).sum / ((c9Bins.length : ℚ)) / 255) *
            (1 - (c9Run n).volumeSmoothing) := by
      simp [getAudioData, hact, han]
    rw [hvol, ha, hp, c9Bins_raw]
    ring

/-- C9: feeding snapshots of constant normalized mean 0.6 to a fresh
active session with smoothing 0.8 yields, after `n` frames, the smoothed
volume exactly `0.6 * (1 - 0.8 ^ n)`; the frame-to-frame sequence is
strictly increasing and bounded above by 0.6. -/
theorem c9_geometric_convergence (n : ℕ) :
    (c9Run n).prevVolume = (6/10) * (1 - (8/10) ^ n) ∧
      (c9Run n).prevVolume < (c9Run (n + 1)).prevVolume ∧
      (c9Run n).prevVolume < 6/10 := by
  have h1 := (c9Run_state n).2.2.2
  have h2 := (c9Run_state (n + 1)).2.2.2
  have hpow : ((8 : ℚ)/10) ^ (n + 1) < ((8 : ℚ)/10) ^ n :=
    pow_lt_pow_right_of_lt_one₀ (by norm_num) (by norm_num) (Nat.lt_succ_self n)
  have hpos : (0 : ℚ) < ((8 : ℚ)/10) ^ n := by positivity
  refine ⟨h1, ?_, ?_⟩
  · rw [h1, h2]
    linarith
  · rw [h1]
    linarith

/-- The fault-free environment for `startMicrophone`: the permission is
granted and no platform call throws. -/
def okStartEnv : StartEnv :=
  { initEnv := { contextThrows := false, analyserThrows := false }
    stopEnv := { trackStopThrows := false, disconnectThrows := false }
    grant := true
    sourceThrows := false
    connectThrows := false
    catchStopEnv := { trackStopThrows := false, disconnectThrows := false } }

/-- A fault-free `initialize` always succeeds: it is the identity when
already initialized and otherwise sets up the context and analyser. -/
theorem initAudio_ok (m : AudioManager) :
    initAudio m okStartEnv.initEnv =
      (if m.initialized then m
        else { m with audioContext := true, analyser := true, initialized := true },
        Except.ok ()) := by
  unfold initAudio okStartEnv
  split <;> simp

/-- A fault-free `startMicrophone` `try` block from an inactive session:
acquires the next stream id, attaches it, marks active and resets the
metrics window. -/
theorem startTry_from_inactive (m : AudioManager) (w : World) (t : ℤ)
    (h : m.isActive = false) :
    startTry m w okStartEnv t =
      ({ m with
          stream := some w.nextId
          microphone := true
          isActive := true
          metrics := freshMetrics t },
        { nextId := w.nextId + 1, liveStreams := w.nextId :: w.liveStreams },
        Except.ok ()) := by
  simp [startTry, stopMicrophone, okStartEnv, h]

/-- A fault-free `startMicrophone` `try` block from an active session with
an attached stream: stops the old stream's tracks first, then acquires
the next stream id, attaches it, marks active and resets the metrics. -/
theorem startTry_from_active (m : AudioManager) (w : World) (t : ℤ) (sid : ℕ)
    (hact : m.isActive = true) (hstream : m.stream = some sid)
    (hmic : m.microphone = true) :
    startTry m w okStartEnv t =
      ({ m with
          stream := some w.nextId
          microphone := true
          isActive := true
          metrics := freshMetrics t },
        { nextId := w.nextId + 1, liveStreams := w.nextId :: w.liveStreams.erase sid },
        Except.ok ()) := by
  simp [startTry, stopMicrophone, stopDisconnect, okStartEnv, hact, hstream, hmic]

/-- A fault-free `startMicrophone` on an already-initialized manager skips
straight to the `try` block. -/
theorem startMicrophone_initialized (m : AudioManager) (w : World) (t : ℤ)
    (hini : m.initialized = true) :
    startMicrophone m w okStartEnv t = startTry m w okStartEnv t := by
  unfold startMicrophone
  rw [initAudio_ok, if_pos hini]

/-- A fault-free `startMicrophone` on an uninitialized manager first sets
up the context and analyser, then runs the `try` block. -/
theorem startMicrophone_uninitialized (m : AudioManager) (w : World) (t : ℤ)
    (hini : m.initialized = false) :
    startMicrophone m w okStartEnv t =
      startTry { m with audioContext := true, analyser := true, initialized := true }
        w okStartEnv t := by
  unfold startMicrophone
  rw [initAudio_ok, if_neg (by simp [hini])]

/-- C8: two consecutive fault-free `startMicrophone` calls with no stop in
between leave exactly one live device stream (the first session's tracks
are stopped before the new acquisition), the manager active and holding
that new stream, and the rolling metrics reset to a fresh window (peak,
average, sum all 0, count 0) whose boundary is the second call's time. -/
theorem startMicrophone_twice_single_stream (m0 m1 : AudioManager)
    (w0 w1 : World) (r1 : Except JsError Unit) (t1 t2 : ℤ)
    (h0 : m0.isActive = false) (hw : w0.liveStreams = [])
    (hfirst : startMicrophone m0 w0 okStartEnv t1 = (m1, w1, r1)) :
    (startMicrophone m1 w1 okStartEnv t2).2.2 = Except.ok () ∧
      (startMicrophone m1 w1 okStartEnv t2).2.1.liveStreams = [w0.nextId + 1] ∧
      (startMicrophone m1 w1 okStartEnv t2).1.stream = some (w0.nextId + 1) ∧
      (startMicrophone m1 w1 okStartEnv t2).1.isActive = true ∧
      (startMicrophone m1 w1 okStartEnv t2).1.metrics =
        { lastUpdate := t2, updateInterval := 1000, peakVolume := 0,
          averageVolume := 0, sampleCount := 0, volumeSum := 0 } := by
  by_cases hini : m0.initialized = true
  · rw [startMicrophone_initialized m0 w0 t1 hini,
      startTry_from_inactive m0 w0 t1 h0] at hfirst
    simp only [Prod.mk.injEq] at hfirst
    obtain ⟨hA, hW, hr⟩ := hfirst
    subst hA
    subst hW
    rw [startMicrophone_initialized _ _ _ (by simp [hini]),
      startTry_from_active _ _ _ w0.nextId rfl rfl rfl]
    refine ⟨rfl, ?_, rfl, rfl, ?_⟩
    · simp [hw]
    · simp [freshMetrics]
  · rw [startMicrophone_uninitialized m0 w0 t1 (by simpa using hini),
      startTry_from_inactive _ w0 t1 (by simpa using h0)] at hfirst
    simp only [Prod.mk.injEq] at hfirst
    obtain ⟨hA, hW, hr⟩ := hfirst
    subst hA
    subst hW
    rw [startMicrophone_initialized _ _ _ (by simp),
      startTry_from_active _ _ _ w0.nextId rfl rfl rfl]
    refine ⟨rfl, ?_, rfl, rfl, ?_⟩
    · simp [hw]
    · simp [freshMetrics]

/-- Witness for C8: a fresh manager started twice at times 0 and 1. -/
theorem startMicrophone_twice_single_stream_witness :
    (startMicrophone
        { initialized := true
          isActive := true
          audioContext := true
          analyser := true
          microphone := true
          volumeSmoothing := 8/10
          prevVolume := 0
          stream := some 0
          metrics := freshMetrics 0 }
        { nextId := 1, liveStreams := [0] } okStartEnv 1).2.2 = Except.ok () ∧
      (startMicrophone
        { initialized := true
          isActive := true
          audioContext := true
          analyser := true
          microphone := true
          volumeSmoothing := 8/10
          prevVolume := 0
          stream := some 0
          metrics := freshMetrics 0 }
        { nextId := 1, liveStreams := [0] } okStartEnv 1).2.1.liveStreams = [1] ∧
      (startMicrophone
        { initialized := true
          isActive := true
          audioContext := true
          analyser := true
          microphone := true
          volumeSmoothing := 8/10
          prevVolume := 0
          stream := some 0
          metrics := freshMetrics 0 }
        { nextId := 1, liveStreams := [0] } okStartEnv 1).1.stream = some 1 ∧
      (startMicrophone
        { initialized := true
          isActive := true
          audioContext := true
          analyser := true
          microphone := true
          volumeSmoothing := 8/10
          prevVolume := 0
          stream := some 0
          metrics := freshMetrics 0 }
        { nextId := 1, liveStreams := [0] } okStartEnv 1).1.isActive = true ∧
      (startMicrophone
        { initialized := true
          isActive := true
          audioContext := true
          analyser := true
          microphone := true
          volumeSmoothing := 8/10
          prevVolume := 0
          stream := some 0
          metrics := freshMetrics 0 }
        { nextId := 1, liveStreams := [0] } okStartEnv 1).1.metrics =
        { lastUpdate := 1, updateInterval := 1000, peakVolume := 0,
          averageVolume := 0, sampleCount := 0, volumeSum := 0 } :=
  startMicrophone_twice_single_stream mkAudioManager
    { initialized := true
      isActive := true
      audioContext := true
      analyser := true
      microphone := true
      volumeSmoothing := 8/10
      prevVolume := 0
      stream := some 0
      metrics := freshMetrics 0 }
    { nextId := 0, liveStreams := [] } { nextId := 1, liveStreams := [0] }
    (Except.ok ()) 0 1 rfl rfl (by rfl)
